import Mathlib

/-!
# Verification of the ApplicationSet custom analyzer

Shallow embedding of `pkg/analyzer` from `ranakan19/custom-analyzer`.
The repository carries two variants of the analysis pipeline: a typed one
(`analyzer.go`, converting each item into an `argov1.ApplicationSet`) and an
untyped one working directly over `unstructured.Unstructured` documents
(`appset.go`), which is the variant the test suite exercises and the one
embedded here.  The `Run` entry point follows `analyzer.go`'s branch
structure (uninitialized client, list failure, empty list, aggregation),
with the per-document analysis delegated to the untyped pipeline.

Documents are modelled as a JSON-like tree `JValue`; Go maps become
association lists, and the `unstructured.Nested*` accessors become
`Option`/`Except`-returning functions with the same found/error behaviour.
External list calls (the dynamic client) are modelled as explicit inputs:
a `Snapshot` carries the response to the parent list call and a function
giving the response of each namespaced, label-filtered dependent list call.
-/

set_option autoImplicit false

namespace CustomAnalyzer

/-- A JSON-like value, the shape of a decoded `unstructured` object:
Go's `interface{}` restricted to the values produced by JSON decoding. -/
inductive JValue where
  | str : String → JValue
  | jbool : Bool → JValue
  | num : Int → JValue
  | null : JValue
  | arr : List JValue → JValue
  | obj : List (String × JValue) → JValue

/-- Lookup of a key in a Go map (modelled as an association list):
first binding wins, `none` when the key is absent. -/
def jlookup (fields : List (String × JValue)) (k : String) : Option JValue :=
  (fields.find? (fun p => p.1 == k)).map (fun p => p.2)

/-- Go two-valued type assertion `v.(map[string]interface{})`. -/
def asObj : JValue → Option (List (String × JValue))
  | JValue.obj fs => some fs
  | _ => none

/-- Go one-valued type assertion `m[k].(string)` with zero-value default:
yields `""` when the key is absent or the value is not a string. -/
def getStr (fields : List (String × JValue)) (k : String) : String :=
  match jlookup fields k with
  | some (JValue.str s) => s
  | _ => ""

/-- `unstructured.NestedFieldNoCopy` with the three-way outcome kept.
Each traversal step mirrors the Go loop body in order: the `val == nil`
guard first, so a null node with path remaining is not-found (`.ok
none`), NOT an error; then the mapping assertion, so a non-null
non-mapping intermediate is an accessor error; a key absent from a
mapping is not-found.  A null as the final value is found (`.ok (some
null)`), as in Go, where the nil guard sits before the lookup of the
next field only. -/
def nestedField3 : JValue → List String → Except Unit (Option JValue)
  | v, [] => Except.ok (some v)
  | JValue.null, _ :: _ => Except.ok none
  | v, k :: ks =>
    match v with
    | JValue.obj fs =>
      match jlookup fs k with
      | some v2 => nestedField3 v2 ks
      | none => Except.ok none
    | _ => Except.error ()

/-- `NestedFieldNoCopy` as used through `err == nil && found`:
the error and not-found outcomes collapse to `none`. -/
def nestedField (v : JValue) (path : List String) : Option JValue :=
  match nestedField3 v path with
  | Except.ok (some w) => some w
  | _ => none

/-- `unstructured.NestedString`: `some s` exactly when the path resolves
to a string value (a present non-string value is an accessor error). -/
def nestedString (v : JValue) (path : List String) : Option String :=
  match nestedField v path with
  | some (JValue.str s) => some s
  | _ => none

/-- `unstructured.NestedSlice` with the error kept apart from not-found:
`.error` when traversal fails or the final value is not a sequence. -/
def nestedSlice3 (v : JValue) (path : List String) : Except Unit (Option (List JValue)) :=
  match nestedField3 v path with
  | Except.error _ => Except.error ()
  | Except.ok none => Except.ok none
  | Except.ok (some w) =>
    match w with
    | JValue.arr xs => Except.ok (some xs)
    | _ => Except.error ()

/-- `NestedSlice` as used through `err == nil && found`. -/
def nestedSlice (v : JValue) (path : List String) : Option (List JValue) :=
  match nestedSlice3 v path with
  | Except.ok (some xs) => some xs
  | _ => none

/-- `unstructured.Unstructured.GetName`: empty string when absent. -/
def getName (d : JValue) : String :=
  (nestedString d ["metadata", "name"]).getD ""

/-- `unstructured.Unstructured.GetNamespace`: empty string when absent. -/
def getNamespace (d : JValue) : String :=
  (nestedString d ["metadata", "namespace"]).getD ""

/-- The `%s/%s` identifier used in every finding text. -/
def appId (d : JValue) : String :=
  getNamespace d ++ "/" ++ getName d

/-! ## appset.go: per-dependent analysis -/

/-- `analyzeApplication` (appset.go): health, sync and operation-state
checks over one live dependent `Application` document. -/
def analyzeApplication (app : JValue) : List String :=
  (match nestedField app ["status", "health", "status"] with
   | some (JValue.str healthStr) =>
     if healthStr ≠ "Healthy" then
       ["Application " ++ appId app ++ " is not healthy (status: " ++ healthStr ++ "): "
         ++ (nestedString app ["status", "health", "message"]).getD ""]
     else []
   | _ => []) ++
  (match nestedField app ["status", "sync", "status"] with
   | some (JValue.str syncStr) =>
     if syncStr ≠ "Synced" then
       ["Application " ++ appId app ++ " is not synced (status: " ++ syncStr ++ ")"]
     else []
   | _ => []) ++
  (match nestedString app ["status", "operationState", "phase"] with
   | some operationPhase =>
     if operationPhase = "Failed" then
       ["Application " ++ appId app ++ " has failed operation: "
         ++ (nestedString app ["status", "operationState", "message"]).getD ""]
     else []
   | none => [])

/-! ## appset.go: condition checks -/

/-- One iteration of the `checkConditions` loop (appset.go): classify a
single condition entry against the three recognized error kinds. -/
def condFinding (id : String) (c : JValue) : List String :=
  match asObj c with
  | none => []
  | some condition =>
    let condType := getStr condition "type"
    let condStatus := getStr condition "status"
    let condMessage := getStr condition "message"
    if condType = "ErrorOccurred" then
      if condStatus = "True" then
        ["ApplicationSet " ++ id ++ " has error condition: " ++ condMessage]
      else []
    else if condType = "ParametersGenerated" then
      if condStatus = "False" then
        ["ApplicationSet " ++ id ++ " failed to generate parameters: " ++ condMessage]
      else []
    else if condType = "ResourcesUpToDate" then
      if condStatus = "False" then
        ["ApplicationSet " ++ id ++ " resources are not up to date: " ++ condMessage]
      else []
    else []

/-- `checkConditions` (appset.go): scan `status.conditions`. -/
def checkConditions (appSet : JValue) : List String :=
  match nestedSlice appSet ["status", "conditions"] with
  | none => []
  | some conditions => (conditions.map (condFinding (appId appSet))).flatten

/-- One iteration of the `checkProgressingState` loop (appset.go). -/
def progressingFinding (id : String) (c : JValue) : List String :=
  match asObj c with
  | none => []
  | some condition =>
    if getStr condition "type" = "Progressing" ∧ getStr condition "status" = "True" then
      ["ApplicationSet " ++ id ++ " is in progressing state: " ++ getStr condition "message"]
    else []

/-- `checkProgressingState` (appset.go): a separate scan of
`status.conditions` for the `Progressing` kind. -/
def checkProgressingState (appSet : JValue) : List String :=
  match nestedSlice appSet ["status", "conditions"] with
  | none => []
  | some conditions => (conditions.map (progressingFinding (appId appSet))).flatten

/-! ## appset.go: generator validation -/

/-- The Git block of `validateGeneratorType`: `repoURL` absent or equal
to the empty string (Go interface comparison `repoURL == ""`). -/
def gitGenCheck (id : String) (index : Nat) (gitMap : List (String × JValue)) : List String :=
  match jlookup gitMap "repoURL" with
  | none =>
    ["ApplicationSet " ++ id ++ " Git generator at index " ++ toString index ++ " has empty repoURL"]
  | some (JValue.str s) =>
    if s = "" then
      ["ApplicationSet " ++ id ++ " Git generator at index " ++ toString index ++ " has empty repoURL"]
    else []
  | some _ => []

/-- The List block of `validateGeneratorType`. -/
def listGenCheck (id : String) (index : Nat) (listMap : List (String × JValue)) : List String :=
  match jlookup listMap "elements" with
  | none =>
    match jlookup listMap "elementsYaml" with
    | none =>
      ["ApplicationSet " ++ id ++ " List generator at index " ++ toString index
        ++ " has no elements or elementsYaml"]
    | some _ => []
  | some elements =>
    match elements with
    | JValue.arr elemSlice =>
      if elemSlice.length = 0 then
        ["ApplicationSet " ++ id ++ " List generator at index " ++ toString index
          ++ " has empty elements array"]
      else []
    | _ => []

/-- The Clusters block of `validateGeneratorType`. -/
def clustersGenCheck (id : String) (index : Nat) (clusterMap : List (String × JValue)) : List String :=
  match jlookup clusterMap "selector", jlookup clusterMap "values" with
  | none, none =>
    ["ApplicationSet " ++ id ++ " Cluster generator at index " ++ toString index
      ++ " has no selector or values"]
  | _, some values =>
    match values with
    | JValue.obj valuesMap =>
      if valuesMap.length = 0 then
        ["ApplicationSet " ++ id ++ " Cluster generator at index " ++ toString index
          ++ " has empty values"]
      else []
    | _ => []
  | some _, none => []

/-- `validateGeneratorType` (appset.go): the three tag-specific blocks in
source order; a tag whose value is not a mapping contributes nothing. -/
def validateGeneratorType (id : String) (generator : List (String × JValue)) (index : Nat) :
    List String :=
  (match jlookup generator "git" with
   | some g =>
     match asObj g with
     | some gitMap => gitGenCheck id index gitMap
     | none => []
   | none => []) ++
  (match jlookup generator "list" with
   | some l =>
     match asObj l with
     | some listMap => listGenCheck id index listMap
     | none => []
   | none => []) ++
  (match jlookup generator "clusters" with
   | some c =>
     match asObj c with
     | some clusterMap => clustersGenCheck id index clusterMap
     | none => []
   | none => [])

/-- One iteration of the `analyzeGenerators` loop (appset.go): the
not-a-mapping check, the literal-emptiness check, then the tag checks. -/
def genEntryFindings (id : String) (index : Nat) (gen : JValue) : List String :=
  match asObj gen with
  | none =>
    ["ApplicationSet " ++ id ++ " has invalid generator at index " ++ toString index]
  | some generator =>
    if generator.length = 0 then
      ["ApplicationSet " ++ id ++ " has empty generator at index " ++ toString index]
    else
      validateGeneratorType id generator index

/-- `analyzeGenerators` (appset.go): accessor error, absent-or-empty
sequence, then the indexed per-entry checks.  The `: <err>` detail that
the Go code appends to the invalid-configuration text is elided here
(the model's accessor error carries no message); no theorem below
depends on that finding's text. -/
def analyzeGenerators (appSet : JValue) : List String :=
  match nestedSlice3 appSet ["spec", "generators"] with
  | Except.error _ =>
    ["ApplicationSet " ++ appId appSet ++ " has invalid generators configuration"]
  | Except.ok none =>
    ["ApplicationSet " ++ appId appSet ++ " has no generators defined"]
  | Except.ok (some generators) =>
    if generators.length = 0 then
      ["ApplicationSet " ++ appId appSet ++ " has no generators defined"]
    else
      (generators.enum.map (fun p => genEntryFindings (appId appSet) p.1 p.2)).flatten

/-! ## appset.go: dependent-status correlation -/

/-- One iteration of the inline-summary loop in
`analyzeGeneratedApplications` (appset.go): the health and sync checks
over one `status.applicationStatus` entry. -/
def inlineEntryFindings (app : JValue) : List String :=
  match asObj app with
  | none => []
  | some appInfo =>
    let appName := getStr appInfo "application"
    let health := getStr appInfo "health"
    let sync := getStr appInfo "sync"
    let message := getStr appInfo "message"
    (if health ≠ "" ∧ health ≠ "Healthy" then
      ["Generated Application " ++ appName ++ " is not healthy (status: " ++ health ++ "): "
        ++ message]
     else []) ++
    (if sync ≠ "" ∧ sync ≠ "Synced" then
      ["Generated Application " ++ appName ++ " is not synced (status: " ++ sync ++ ")"]
     else [])

/-- The findings of the inline-summary pass over
`status.applicationStatus` (first half of `analyzeGeneratedApplications`). -/
def inlineSummaryFindings (appSet : JValue) : List String :=
  match nestedSlice appSet ["status", "applicationStatus"] with
  | none => []
  | some appStatus => (appStatus.map inlineEntryFindings).flatten

/-- The label selector built for the live dependent list call. -/
def appLabelSelector (appSet : JValue) : String :=
  "argocd.argoproj.io/application-set-name=" ++ getName appSet

/-- The response type of an external list call: the returned items, or
the Go error rendered as text. -/
abbrev FetchResult := Except String (List JValue)

/-- `analyzeGeneratedApplications` (appset.go): the inline-summary pass,
then the live label-filtered list call; a failing list call returns the
inline findings unchanged (the error is swallowed); a successful empty
list combined with an empty inline summary yields the no-generated-
applications finding; each returned document goes through
`analyzeApplication`. -/
def analyzeGeneratedApplications (fetchApps : String → String → FetchResult)
    (appSet : JValue) : List String :=
  match fetchApps (getNamespace appSet) (appLabelSelector appSet) with
  | Except.error _ => inlineSummaryFindings appSet
  | Except.ok items =>
    inlineSummaryFindings appSet ++
    (if items.length = 0 ∧ ((nestedSlice appSet ["status", "applicationStatus"]).getD []).length = 0 then
      ["ApplicationSet " ++ appId appSet ++ " has no generated applications"]
     else []) ++
    (items.map analyzeApplication).flatten

/-- `analyzeApplicationSet` (appset.go): the four stages in fixed order —
conditions, progressing, generators, generated applications. -/
def analyzeApplicationSet (fetchApps : String → String → FetchResult)
    (appSet : JValue) : List String :=
  checkConditions appSet ++
  checkProgressingState appSet ++
  analyzeGenerators appSet ++
  analyzeGeneratedApplications fetchApps appSet

/-! ## The Run entry point -/

/-- The `Result` message of the RPC response: `Name`, `Details` (a
newline-joined log) and `Error` (the ordered findings, one text each). -/
structure Result where
  name : String
  details : String
  error : List String
deriving DecidableEq, Repr

/-- The `RunResponse` message. -/
structure RunResponse where
  result : Result
deriving DecidableEq, Repr

/-- The external state a single invocation observes: whether the dynamic
client was initialized, the response of the parent (ApplicationSet) list
call, and the response of each namespaced label-filtered dependent
(Application) list call. -/
structure Snapshot where
  clientInitialized : Bool
  listAppSets : FetchResult
  listApps : String → String → FetchResult

/-- The detail lines added per parent by `Run`'s loop: the name line and
one line per entry of `status.conditions` (a non-mapping entry renders
through the zero-valued field accessors). -/
def conditionDetailLines (appSet : JValue) : List String :=
  match nestedSlice appSet ["status", "conditions"] with
  | none => []
  | some conditions =>
    conditions.map (fun c =>
      match asObj c with
      | none => "  Condition:  =  ()"
      | some condition =>
        "  Condition: " ++ getStr condition "type" ++ " = " ++ getStr condition "status"
          ++ " (" ++ getStr condition "message" ++ ")")

/-- The fold step of `Run`'s per-ApplicationSet loop: findings are
appended to `errors`, the name line and condition lines to `details`. -/
def runStep (listApps : String → String → FetchResult)
    (acc : List String × List String) (item : JValue) : List String × List String :=
  (acc.1 ++ analyzeApplicationSet listApps item,
   acc.2 ++ ["ApplicationSet: " ++ appId item] ++ conditionDetailLines item)

/-- `Run` (analyzer.go): the RPC handler.  Every branch returns a normal
response (`Except.ok`, mirroring the Go code's invariably nil `error`
return value): the uninitialized-client and list-failure branches encode
the failure in the response's `details` and `error` fields; an empty list
is reported in `details` with no findings; otherwise the per-document
analyses are aggregated behind a leading count line. -/
def Run (s : Snapshot) : Except String RunResponse :=
  if s.clientInitialized = false then
    Except.ok ⟨⟨"applicationset-analyzer",
      "Failed to initialize Kubernetes client",
      ["Could not connect to Kubernetes cluster. Ensure kubeconfig is properly configured or running in-cluster."]⟩⟩
  else
    match s.listAppSets with
    | Except.error e =>
      Except.ok ⟨⟨"applicationset-analyzer",
        "Failed to list ApplicationSets: " ++ e,
        ["Error listing ApplicationSets: " ++ e]⟩⟩
    | Except.ok items =>
      if items.length = 0 then
        Except.ok ⟨⟨"applicationset-analyzer",
          "No ApplicationSets found in the cluster",
          []⟩⟩
      else
        let start : List String × List String :=
          ([], ["Found " ++ toString items.length ++ " ApplicationSet(s) in the cluster"])
        let acc := items.foldl (runStep s.listApps) start
        Except.ok ⟨⟨"applicationset-analyzer",
          String.intercalate "\n" acc.2,
          acc.1⟩⟩

/-! ## Helper lemmas -/

/-- A lookup over fields none of whose keys match yields `none`. -/
theorem jlookup_eq_none (fs : List (String × JValue)) (k : String)
    (h : ∀ p ∈ fs, p.1 ≠ k) : jlookup fs k = none := by
  unfold jlookup
  have hf : fs.find? (fun p => p.1 == k) = none :=
    List.find?_eq_none.mpr (by intro x hx; simpa using h x hx)
  rw [hf]
  rfl

/-- A condition object with the given type, status and message. -/
def condObj (t s m : String) : JValue :=
  JValue.obj [("type", JValue.str t), ("status", JValue.str s), ("message", JValue.str m)]

/-! ## C1 -/

/-- An ApplicationSet document with one valid List generator and one
degraded entry in the inline `status.applicationStatus` summary. -/
def exDoc1 : JValue :=
  JValue.obj [
    ("metadata", JValue.obj [("name", JValue.str "x"), ("namespace", JValue.str "default")]),
    ("spec", JValue.obj [("generators", JValue.arr [
      JValue.obj [("list", JValue.obj [("elements",
        JValue.arr [JValue.obj [("env", JValue.str "dev")]])])]])]),
    ("status", JValue.obj [("applicationStatus", JValue.arr [
      JValue.obj [("application", JValue.str "app1"), ("health", JValue.str "Degraded"),
        ("sync", JValue.str "Synced"), ("message", JValue.str "boom")]])])]

/-- A dependent list call that always fails. -/
def exFetchFail : String → String → FetchResult := fun _ _ => Except.error "forbidden"

/-- C1: when the live dependent list call fails, the parent's analysis is
not aborted and no finding is added for the failure: the result is
exactly the condition, progressing and generator findings followed by the
inline-summary findings already computed. -/
theorem claim1_fetch_error_swallowed (fetchApps : String → String → FetchResult)
    (appSet : JValue) (e : String)
    (h : fetchApps (getNamespace appSet) (appLabelSelector appSet) = Except.error e) :
    analyzeApplicationSet fetchApps appSet =
      checkConditions appSet ++ checkProgressingState appSet ++ analyzeGenerators appSet
        ++ inlineSummaryFindings appSet := by
  unfold analyzeApplicationSet analyzeGeneratedApplications
  rw [h]

/-- C1 witness: a concrete parent whose dependent fetch fails still
reports its inline-summary finding. -/
theorem claim1_fetch_error_swallowed_witness :
    analyzeApplicationSet exFetchFail exDoc1 =
      checkConditions exDoc1 ++ checkProgressingState exDoc1 ++ analyzeGenerators exDoc1
        ++ inlineSummaryFindings exDoc1 ∧
    inlineSummaryFindings exDoc1 =
      ["Generated Application app1 is not healthy (status: Degraded): boom"] :=
  ⟨claim1_fetch_error_swallowed exFetchFail exDoc1 "forbidden" rfl, rfl⟩

/-! ## C2 -/

/-- An ApplicationSet whose conditions are, in order,
`Progressing=True` (message `p`) and `ParametersGenerated=False`
(message `q`), with one valid List generator. -/
def exDoc2 : JValue :=
  JValue.obj [
    ("metadata", JValue.obj [("name", JValue.str "x"), ("namespace", JValue.str "default")]),
    ("spec", JValue.obj [("generators", JValue.arr [
      JValue.obj [("list", JValue.obj [("elements",
        JValue.arr [JValue.obj [("env", JValue.str "dev")]])])]])]),
    ("status", JValue.obj [("conditions", JValue.arr [
      condObj "Progressing" "True" "p", condObj "ParametersGenerated" "False" "q"])])]

/-- C2 counterexample: for the conditions `[Progressing=True,
ParametersGenerated=False]` the failed-to-generate-parameters finding
comes first and the progressing finding second — not the claimed
relative order, because the progressing check is a separate pass run
after the other condition checks. -/
theorem claim2_condition_order_counterexample :
    analyzeApplicationSet exFetchFail exDoc2 =
      ["ApplicationSet default/x failed to generate parameters: q",
       "ApplicationSet default/x is in progressing state: p"] := rfl

/-- C2 (amended): condition findings of kinds ErrorOccurred,
ParametersGenerated and ResourcesUpToDate are emitted by one pass in
input order, and all progressing findings follow them in a second pass;
for a parent whose conditions are `[Progressing=True,
ParametersGenerated=False]` the first two findings are the
failed-to-generate-parameters finding, then the progressing finding. -/
theorem claim2_condition_order_amended (fetchApps : String → String → FetchResult)
    (appSet : JValue) (p q : String)
    (h : nestedSlice appSet ["status", "conditions"] =
      some [condObj "Progressing" "True" p, condObj "ParametersGenerated" "False" q]) :
    (analyzeApplicationSet fetchApps appSet).take 2 =
      ["ApplicationSet " ++ appId appSet ++ " failed to generate parameters: " ++ q,
       "ApplicationSet " ++ appId appSet ++ " is in progressing state: " ++ p] := by
  have hc : checkConditions appSet =
      ["ApplicationSet " ++ appId appSet ++ " failed to generate parameters: " ++ q] := by
    unfold checkConditions
    rw [h]
    rfl
  have hp : checkProgressingState appSet =
      ["ApplicationSet " ++ appId appSet ++ " is in progressing state: " ++ p] := by
    unfold checkProgressingState
    rw [h]
    rfl
  unfold analyzeApplicationSet
  rw [hc, hp]
  rfl

/-- C2 witness: the amended order at a concrete parent. -/
theorem claim2_condition_order_amended_witness :
    (analyzeApplicationSet exFetchFail exDoc2).take 2 =
      ["ApplicationSet " ++ appId exDoc2 ++ " failed to generate parameters: " ++ "q",
       "ApplicationSet " ++ appId exDoc2 ++ " is in progressing state: " ++ "p"] :=
  claim2_condition_order_amended exFetchFail exDoc2 "p" "q" rfl

/-! ## C3 -/

/-- An ApplicationSet whose single generator entry is a non-empty
mapping holding only the unrecognized key `foo`. -/
def exDoc3 : JValue :=
  JValue.obj [
    ("metadata", JValue.obj [("name", JValue.str "x"), ("namespace", JValue.str "default")]),
    ("spec", JValue.obj [("generators", JValue.arr [
      JValue.obj [("foo", JValue.str "bar")]])])]

/-- C3 counterexample: a generator entry that is a non-empty mapping with
only unrecognized keys produces no finding at all — in particular not the
claimed empty-generator finding — because the code tests literal map
emptiness, not absence of known tags. -/
theorem claim3_unrecognized_keys_counterexample :
    analyzeGenerators exDoc3 = [] ∧
    "ApplicationSet default/x has empty generator at index 0" ∉ analyzeGenerators exDoc3 :=
  ⟨rfl, by decide⟩

/-- C3 (amended): for a generator entry that is a mapping with none of
the tag keys the validator inspects (`git`, `list`, `clusters`), the
empty-generator finding is emitted exactly when the mapping is literally
empty; a non-empty mapping with only unrecognized keys yields no
findings and no variant checks. -/
theorem claim3_empty_generator_amended (id : String) (index : Nat)
    (fs : List (String × JValue))
    (h : ∀ p ∈ fs, p.1 ≠ "git" ∧ p.1 ≠ "list" ∧ p.1 ≠ "clusters") :
    genEntryFindings id index (JValue.obj fs) =
      if fs.length = 0 then
        ["ApplicationSet " ++ id ++ " has empty generator at index " ++ toString index]
      else [] := by
  by_cases hl : fs.length = 0
  · simp [genEntryFindings, asObj, hl]
  · simp only [genEntryFindings, asObj, hl, if_neg hl, if_false]
    simp [validateGeneratorType,
      jlookup_eq_none fs "git" (fun p hp => (h p hp).1),
      jlookup_eq_none fs "list" (fun p hp => (h p hp).2.1),
      jlookup_eq_none fs "clusters" (fun p hp => (h p hp).2.2), hl]

/-- C3 witness: the amended statement at a concrete non-empty entry with
one unrecognized key. -/
theorem claim3_empty_generator_amended_witness :
    genEntryFindings "default/x" 0 (JValue.obj [("foo", JValue.str "bar")]) =
      if ([("foo", JValue.str "bar")] : List (String × JValue)).length = 0 then
        ["ApplicationSet " ++ "default/x" ++ " has empty generator at index " ++ toString 0]
      else [] :=
  claim3_empty_generator_amended "default/x" 0 [("foo", JValue.str "bar")] (by decide)

/-! ## C4 -/

/-- A live dependent document with the given health status, health
message and sync status under `status`. -/
def liveAppDoc (ns nm h s hm : String) : JValue :=
  JValue.obj [
    ("metadata", JValue.obj [("name", JValue.str nm), ("namespace", JValue.str ns)]),
    ("status", JValue.obj [
      ("health", JValue.obj [("status", JValue.str h), ("message", JValue.str hm)]),
      ("sync", JValue.obj [("status", JValue.str s)])])]

/-- An inline `status.applicationStatus` summary entry. -/
def summaryEntry (an h s m : String) : JValue :=
  JValue.obj [("application", JValue.str an), ("health", JValue.str h),
    ("sync", JValue.str s), ("message", JValue.str m)]

/-- C4 counterexample: on a health status equal to the empty string the
two predicates disagree — the live-dependent rule emits a not-healthy
finding for an empty-string health status, the inline-summary rule
emits nothing for the same health and sync values. -/
theorem claim4_empty_status_counterexample :
    analyzeApplication (liveAppDoc "default" "app1" "" "Synced" "") =
      ["Application default/app1 is not healthy (status: ): "] ∧
    inlineEntryFindings (summaryEntry "app1" "" "Synced" "") = [] :=
  ⟨rfl, rfl⟩

/-- C4 (amended): for health and sync status values that are both
non-empty, the live-dependent rule and the inline-summary rule fire
under exactly the same conditions (not "Healthy", not "Synced"), so
they produce the same number of findings; they differ only on a
present-but-empty status string, where the live rule fires and the
inline rule stays silent. -/
theorem claim4_nonempty_status_agreement (ns nm an h s hm m : String)
    (hh : h ≠ "") (hs : s ≠ "") :
    (analyzeApplication (liveAppDoc ns nm h s hm)).length =
      (inlineEntryFindings (summaryEntry an h s m)).length := by
  by_cases h1 : h = "Healthy" <;> by_cases h2 : s = "Synced" <;>
    simp [analyzeApplication, inlineEntryFindings, liveAppDoc, summaryEntry,
      nestedField, nestedField3, nestedString, jlookup, getStr, asObj, List.find?,
      h1, h2, hh, hs]

/-- C4 witness: agreement at a concrete degraded, out-of-sync status. -/
theorem claim4_nonempty_status_agreement_witness :
    ("Degraded" : String) ≠ "" ∧ ("OutOfSync" : String) ≠ "" ∧
    (analyzeApplication (liveAppDoc "default" "app1" "Degraded" "OutOfSync" "m")).length =
      (inlineEntryFindings (summaryEntry "app1" "Degraded" "OutOfSync" "m")).length :=
  ⟨by decide, by decide,
    claim4_nonempty_status_agreement "default" "app1" "app1" "Degraded" "OutOfSync" "m" "m"
      (by decide) (by decide)⟩

/-! ## C5 -/

/-- A snapshot whose parent list call fails. -/
def exSnapListFail : Snapshot :=
  ⟨true, Except.error "connection refused", fun _ _ => Except.ok []⟩

/-- A snapshot whose client is not initialized although the parent list
call would succeed with one document. -/
def exSnapNilClient : Snapshot :=
  ⟨false, Except.ok [exDoc1], fun _ _ => Except.ok []⟩

/-- C5 counterexample: when parent enumeration fails the run returns a
normal response whose findings channel (`result.error`) carries one
entry with the error text — findings ARE produced and no run-level
failure is raised; moreover the uninitialized-client branch also aborts
the run even though enumeration would succeed, so enumeration failure is
not the only aborting condition. -/
theorem claim5_failure_finding_counterexample :
    Run exSnapListFail =
      Except.ok ⟨⟨"applicationset-analyzer",
        "Failed to list ApplicationSets: connection refused",
        ["Error listing ApplicationSets: connection refused"]⟩⟩ ∧
    Run exSnapNilClient =
      Except.ok ⟨⟨"applicationset-analyzer",
        "Failed to initialize Kubernetes client",
        ["Could not connect to Kubernetes cluster. Ensure kubeconfig is properly configured or running in-cluster."]⟩⟩ :=
  ⟨rfl, rfl⟩

/-- C5 (amended): a failed parent enumeration aborts the run before any
document is analyzed and is reported inside a normal response — the
failure text in `details` and as a single entry of the findings channel,
never as a transport-level failure; the uninitialized-client check is
the one other condition that aborts the whole run, with the same
reporting shape. -/
theorem claim5_abort_branches_amended (s t : Snapshot) (e : String)
    (hc : s.clientInitialized = true) (hl : s.listAppSets = Except.error e)
    (ht : t.clientInitialized = false) :
    Run s = Except.ok ⟨⟨"applicationset-analyzer",
        "Failed to list ApplicationSets: " ++ e,
        ["Error listing ApplicationSets: " ++ e]⟩⟩ ∧
    Run t = Except.ok ⟨⟨"applicationset-analyzer",
        "Failed to initialize Kubernetes client",
        ["Could not connect to Kubernetes cluster. Ensure kubeconfig is properly configured or running in-cluster."]⟩⟩ := by
  constructor
  · unfold Run
    rw [hc, hl]
    rfl
  · unfold Run
    rw [ht]
    rfl

/-- C5 witness: both abort branches at concrete snapshots. -/
theorem claim5_abort_branches_amended_witness :
    Run exSnapListFail =
      Except.ok ⟨⟨"applicationset-analyzer",
        "Failed to list ApplicationSets: connection refused",
        ["Error listing ApplicationSets: connection refused"]⟩⟩ ∧
    Run exSnapNilClient =
      Except.ok ⟨⟨"applicationset-analyzer",
        "Failed to initialize Kubernetes client",
        ["Could not connect to Kubernetes cluster. Ensure kubeconfig is properly configured or running in-cluster."]⟩⟩ :=
  claim5_abort_branches_amended exSnapListFail exSnapNilClient "connection refused" rfl rfl rfl

/-! ## C6 -/

/-- An ApplicationSet whose `spec` has no `generators` key. -/
def exDoc6 : JValue :=
  JValue.obj [
    ("metadata", JValue.obj [("name", JValue.str "x"), ("namespace", JValue.str "default")]),
    ("spec", JValue.obj [])]

/-- An ApplicationSet whose `spec` key holds an explicit null, so the
`spec.generators` path is absent through the accessor's nil-intermediate
rule (not-found, not an accessor error). -/
def exDoc6null : JValue :=
  JValue.obj [
    ("metadata", JValue.obj [("name", JValue.str "y"), ("namespace", JValue.str "default")]),
    ("spec", JValue.null)]

/-- C6: a parent whose `spec.generators` is absent or an empty sequence
gets exactly one no-generators finding from the generator stage, hence
no variant findings. -/
theorem claim6_no_generators_single_finding (appSet : JValue)
    (h : nestedSlice3 appSet ["spec", "generators"] = Except.ok none ∨
         nestedSlice3 appSet ["spec", "generators"] = Except.ok (some [])) :
    analyzeGenerators appSet =
      ["ApplicationSet " ++ appId appSet ++ " has no generators defined"] := by
  unfold analyzeGenerators
  rcases h with h | h
  · rw [h]
  · rw [h]
    rfl

/-- C6 witness: two concrete parents without a `spec.generators` path —
one whose `spec` mapping lacks the key, one whose `spec` is null. -/
theorem claim6_no_generators_single_finding_witness :
    analyzeGenerators exDoc6 =
      ["ApplicationSet " ++ appId exDoc6 ++ " has no generators defined"] ∧
    analyzeGenerators exDoc6null =
      ["ApplicationSet " ++ appId exDoc6null ++ " has no generators defined"] :=
  ⟨claim6_no_generators_single_finding exDoc6 (Or.inl rfl),
   claim6_no_generators_single_finding exDoc6null (Or.inl rfl)⟩

/-! ## C7 -/

/-- A generator entry whose List block has an empty `elements` sequence
AND an `elementsYaml` key. -/
def exGen7 : List (String × JValue) :=
  [("list", JValue.obj [("elements", JValue.arr []), ("elementsYaml", JValue.str "a: b")])]

/-- C7 counterexample: with `elements` present as an empty sequence and
`elementsYaml` also present, the validator emits the empty-elements
finding — the claim's clause that a present `elementsYaml` key means
neither finding is emitted is false, because the `elements` branch takes
precedence. -/
theorem claim7_elements_yaml_counterexample :
    validateGeneratorType "default/x" exGen7 0 =
      ["ApplicationSet default/x List generator at index 0 has empty elements array"] := rfl

/-- C7 (amended): for a List generator mapping, (i) with neither
`elements` nor `elementsYaml` present exactly the no-elements finding is
emitted; (ii) with `elements` present as an empty sequence the
empty-elements finding is emitted, whether or not `elementsYaml` is
present; (iii) a non-empty `elements` sequence yields neither finding;
(iv) `elementsYaml` present with `elements` absent yields neither
finding. -/
theorem claim7_list_generator_amended (id : String) (index : Nat)
    (lm : List (String × JValue)) :
    ((jlookup lm "elements" = none ∧ jlookup lm "elementsYaml" = none) →
      listGenCheck id index lm =
        ["ApplicationSet " ++ id ++ " List generator at index " ++ toString index
          ++ " has no elements or elementsYaml"]) ∧
    (jlookup lm "elements" = some (JValue.arr []) →
      listGenCheck id index lm =
        ["ApplicationSet " ++ id ++ " List generator at index " ++ toString index
          ++ " has empty elements array"]) ∧
    (∀ xs, xs ≠ [] → jlookup lm "elements" = some (JValue.arr xs) →
      listGenCheck id index lm = []) ∧
    (jlookup lm "elements" = none → (jlookup lm "elementsYaml").isSome = true →
      listGenCheck id index lm = []) := by
  refine ⟨?_, ?_, ?_, ?_⟩
  · intro h
    unfold listGenCheck
    rw [h.1, h.2]
  · intro h
    unfold listGenCheck
    rw [h]
    rfl
  · intro xs hxs h
    unfold listGenCheck
    rw [h]
    simp [List.length_eq_zero, hxs]
  · intro h1 h2
    unfold listGenCheck
    rw [h1]
    obtain ⟨v, hv⟩ := Option.isSome_iff_exists.mp h2
    rw [hv]

/-- C7 witness: case (iv) at a concrete mapping with only
`elementsYaml`. -/
theorem claim7_list_generator_amended_witness :
    listGenCheck "default/x" 0 [("elementsYaml", JValue.str "a: b")] = [] :=
  (claim7_list_generator_amended "default/x" 0 [("elementsYaml", JValue.str "a: b")]).2.2.2
    rfl rfl

/-! ## C8 -/

/-- A snapshot with an initialized client and zero parent documents. -/
def exSnapEmpty : Snapshot := ⟨true, Except.ok [], fun _ _ => Except.ok []⟩

/-- C8: a successful enumeration returning zero parents is not a
failure: the run returns a normal response with details
"No ApplicationSets found in the cluster" and an empty findings list. -/
theorem claim8_zero_parents_not_failure (s : Snapshot)
    (hc : s.clientInitialized = true) (hl : s.listAppSets = Except.ok []) :
    Run s = Except.ok ⟨⟨"applicationset-analyzer",
      "No ApplicationSets found in the cluster", []⟩⟩ := by
  unfold Run
  rw [hc, hl]
  rfl

/-- C8 witness: the zero-parent response at a concrete snapshot. -/
theorem claim8_zero_parents_not_failure_witness :
    Run exSnapEmpty = Except.ok ⟨⟨"applicationset-analyzer",
      "No ApplicationSets found in the cluster", []⟩⟩ :=
  claim8_zero_parents_not_failure exSnapEmpty rfl rfl

/-! ## C9 -/

/-- C9: the engine is deterministic — two runs over the same snapshot of
parent and dependent documents return identical responses, hence
identical findings lists, ordering and details; the embedded `Run` is a
pure function of the snapshot and consults no other state. -/
theorem claim9_run_deterministic (s1 s2 : Snapshot) (h : s1 = s2) :
    Run s1 = Run s2 := by
  rw [h]

/-- C9 witness: two runs over a concrete snapshot agree. -/
theorem claim9_run_deterministic_witness :
    Run ⟨true, Except.ok [exDoc1, exDoc2], exFetchFail⟩ =
      Run ⟨true, Except.ok [exDoc1, exDoc2], exFetchFail⟩ :=
  claim9_run_deterministic ⟨true, Except.ok [exDoc1, exDoc2], exFetchFail⟩
    ⟨true, Except.ok [exDoc1, exDoc2], exFetchFail⟩ rfl

/-! ## C10 -/

/-- Whether an RPC return value is a normal response (nil Go error). -/
def isOkResponse : Except String RunResponse → Bool
  | Except.ok _ => true
  | Except.error _ => false

/-- C10: `Run` returns a normal response (nil transport error) on every
code path; the uninitialized-client and list-failure cases are encoded
as text inside the response's details and error fields, never surfaced
as an RPC error. -/
theorem claim10_run_always_ok (s : Snapshot) (e : String) :
    isOkResponse (Run s) = true ∧
    (s.clientInitialized = false →
      Run s = Except.ok ⟨⟨"applicationset-analyzer",
        "Failed to initialize Kubernetes client",
        ["Could not connect to Kubernetes cluster. Ensure kubeconfig is properly configured or running in-cluster."]⟩⟩) ∧
    (s.clientInitialized = true → s.listAppSets = Except.error e →
      Run s = Except.ok ⟨⟨"applicationset-analyzer",
        "Failed to list ApplicationSets: " ++ e,
        ["Error listing ApplicationSets: " ++ e]⟩⟩) := by
  refine ⟨?_, ?_, ?_⟩
  · unfold Run
    by_cases hc : s.clientInitialized = false
    · rw [hc]
      rfl
    · rw [if_neg hc]
      cases hl : s.listAppSets with
      | error e2 => rfl
      | ok items =>
        by_cases hi : items.length = 0
        · simp [hi, isOkResponse]
        · simp [hi, isOkResponse]
  · intro hc
    unfold Run
    rw [hc]
    rfl
  · intro hc hl
    unfold Run
    rw [hc, hl]
    rfl

/-- C10 witness: a normal response on both failure paths at concrete
snapshots. -/
theorem claim10_run_always_ok_witness :
    isOkResponse (Run exSnapNilClient) = true ∧
    Run exSnapNilClient = Except.ok ⟨⟨"applicationset-analyzer",
      "Failed to initialize Kubernetes client",
      ["Could not connect to Kubernetes cluster. Ensure kubeconfig is properly configured or running in-cluster."]⟩⟩ :=
  ⟨(claim10_run_always_ok exSnapNilClient "e").1,
   (claim10_run_always_ok exSnapNilClient "e").2.1 rfl⟩

end CustomAnalyzer
